import Mathlib

set_option maxRecDepth 8192

/-!
Shallow embedding of `src/main.py` (single-endpoint FastAPI resume anonymizer).

Texts are modelled as `List Char`.  Python's `str.strip()` and the regex
class `\s` are modelled over the six ASCII whitespace characters; all inputs
appearing in the claims are ASCII.  The external collaborators (the Gemini
generation call and the standard-library JSON parser `json.loads`) are
parameters of the endpoint function; everything else is translated from the
source.
-/

namespace ResumeAnonymizer

/-- ASCII whitespace, as recognised by Python's `str.strip` and `\s`. -/
def isPySpace (c : Char) : Bool :=
  c == ' ' || c == '\t' || c == '\n' || c == '\r' || c == '\x0b' || c == '\x0c'

/-- Drop the maximal leading run of whitespace. -/
def dropWs : List Char → List Char
  | [] => []
  | c :: t => if isPySpace c then dropWs t else c :: t

/-- Python `str.strip()`: drop leading and trailing whitespace. -/
def pyStrip (l : List Char) : List Char :=
  (dropWs ((dropWs l).reverse)).reverse

/-- The code-fence marker. -/
def fence : List Char := "```".toList

/-- Case-insensitive test for a 4-character `json` tag at the front
(the `(?:json)?` group of the leading regex, compiled with `re.IGNORECASE`). -/
def ciJson4 : List Char → Bool
  | a :: b :: c :: d :: _ =>
    (a.toLower == 'j') && (b.toLower == 's') && (c.toLower == 'o') && (d.toLower == 'n')
  | _ => false

/-- Greedy match of the optional `json` language tag. -/
def stripJsonTag (l : List Char) : List Char :=
  if ciJson4 l then l.drop 4 else l

/-- `re.sub(r'^```(?:json)?\s*', '', t, flags=re.IGNORECASE)`:
anchored at the start, so it fires at most once; the group is greedy and
`\s*` then takes the maximal whitespace run. -/
def subLeadingFence (l : List Char) : List Char :=
  if fence.isPrefixOf l then dropWs (stripJsonTag (l.drop 3)) else l

/-- `re.sub(r'\s*```$', '', t)`: `$` matches at the end of the string or just
before a final newline; the leftmost match removes the closing fence together
with the maximal whitespace run before it. -/
def subTrailingFence (l : List Char) : List Char :=
  if fence.isPrefixOf l.reverse then (dropWs (l.reverse.drop 3)).reverse
  else if ('\n' :: fence).isPrefixOf l.reverse then
    ('\n' :: dropWs (l.reverse.drop 4)).reverse
  else l

/-- `_strip_code_fences` from `src/main.py` (lines 399-404). -/
def stripCodeFences (text : List Char) : List Char :=
  pyStrip (subTrailingFence (subLeadingFence (pyStrip text)))

/-- Python `str.replace(old, new)` restricted to a non-empty `old` (the one
call site uses the 13-character placeholder): scan left to right, replacing
each non-overlapping occurrence.  For `old = []` this returns the input
unchanged; the source never calls `replace` with an empty pattern. -/
def pyReplace (old new : List Char) : List Char → List Char
  | [] => []
  | c :: t =>
    if h : old.isPrefixOf (c :: t) = true ∧ old ≠ [] then
      new ++ pyReplace old new ((c :: t).drop old.length)
    else
      c :: pyReplace old new t
termination_by l => l.length
decreasing_by
  · have hlen : 0 < old.length := List.length_pos.mpr h.2
    simp only [List.length_drop, List.length_cons]
    omega
  · simp [Nat.lt_succ_self]

/-- All characters of a list are whitespace (used to quantify over the
optional whitespace around a fenced wrapping). -/
abbrev AllWs (w : List Char) : Prop := ∀ c ∈ w, isPySpace c = true

/-- A character that cannot contribute to a case-insensitive `json` match. -/
abbrev NoJsonChar (z : Char) : Prop :=
  z.toLower ≠ 'j' ∧ z.toLower ≠ 's' ∧ z.toLower ≠ 'o' ∧ z.toLower ≠ 'n'

/-- A fenced wrapping of `s`: optional surrounding whitespace `w1`/`w4`,
an opening fence with an optional language tag `tag`, inner whitespace
`w2`/`w3`, and a closing fence. -/
def wrapFenced (w1 tag w2 s w3 w4 : List Char) : List Char :=
  w1 ++ fence ++ tag ++ w2 ++ s ++ w3 ++ fence ++ w4

/-- `b = true` iff no occurrence of `old` starts inside the `a` part of
`a ++ rest`. -/
def noOccStartingIn (old : List Char) : List Char → List Char → Bool
  | [], _ => true
  | a :: t, rest => !(old.isPrefixOf ((a :: t) ++ rest)) && noOccStartingIn old t rest

/-- Concatenation of a chunk list (the prompt template is stored in chunks so
that facts about it stay within the kernel's evaluation depth). -/
def catChunks : List (List Char) → List Char
  | [] => []
  | a :: t => a ++ catChunks t

/-- Chunk-wise version of `noOccStartingIn` over a chunk list. -/
def noOccChunks (old : List Char) : List (List Char) → List Char → Bool
  | [], _ => true
  | a :: t, rest => noOccStartingIn old a (catChunks t ++ rest) && noOccChunks old t rest

/-- The placeholder that `anonymize` substitutes into the prompt template. -/
def placeholder : List Char := "{RESUME_TEXT}".toList

-- ---------------------------------------------------------------------------
-- JSON values.  `json.loads` yields None/bool/int/float/str/list/dict; JSON
-- numbers are modelled as integers (no claim involves a fractional number).
-- ---------------------------------------------------------------------------

/-- Parsed JSON values, as produced by the (external) `json.loads`. -/
inductive Json where
  | null
  | bool (b : Bool)
  | num (n : Int)
  | str (s : String)
  | arr (elems : List Json)
  | obj (kvs : List (String × Json))

/-- Python `dict.get(k, default)`: the value of the first binding of `k`,
or `default` when `k` is absent. -/
def jsonGet (kvs : List (String × Json)) (k : String) (default : Json) : Json :=
  match kvs with
  | [] => default
  | (k2, v) :: t => if k2 = k then v else jsonGet t k default

/-- Python type names, for the `AttributeError` text raised when `.get` is
called on a non-dict parse result. -/
def pyTypeName : Json → String
  | .null => "NoneType"
  | .bool _ => "bool"
  | .num _ => "int"
  | .str _ => "str"
  | .arr _ => "list"
  | .obj _ => "dict"

/-- An apostrophe (kept out of string literals). -/
def apos : String := String.singleton (Char.ofNat 39)

/-- Message of the `AttributeError` raised by `parsed.get(...)` when the
parse result is not a dict. -/
def attrErrorGet (v : Json) : String :=
  apos ++ pyTypeName v ++ apos ++ " object has no attribute " ++ apos ++ "get" ++ apos

/-- Error detail prefix used by the `except` handler (line 461). -/
def FAILED_PREFIX : String := "Failed to anonymize resume: "

def RESPONSE_ID : String := "local-test-id"
def PROCESSED_BY : String := "gemini-local"
def PROCESSING_TIME : Int := 1200

/-- The `data` object of the JSONResponse (lines 449-458): each expected key
is read with `dict.get` and a default, and three synthetic constants are
added. -/
def buildData (parsed : List (String × Json)) : List (String × Json) :=
  [("candidateName", jsonGet parsed "candidateName" (Json.str "")),
   ("sections", jsonGet parsed "sections" (Json.arr [])),
   ("piiRemoved", jsonGet parsed "piiRemoved" (Json.num 0)),
   ("id", Json.str RESPONSE_ID),
   ("processedBy", Json.str PROCESSED_BY),
   ("processingTime", Json.num PROCESSING_TIME)]

/-- Lines 446-458: strip fences, parse as JSON, reshape via `dict.get`.
A parse failure propagates as an error; a non-dict parse result raises
`AttributeError` at `parsed.get`. -/
def normalizeUpstream (parseJson : List Char → Except String Json)
    (text : List Char) : Except String Json :=
  match parseJson (stripCodeFences text) with
  | .error e => .error e
  | .ok (Json.obj kvs) => .ok (Json.obj [("data", Json.obj (buildData kvs))])
  | .ok v => .error (attrErrorGet v)

/-- Outcome of a request: a 200 JSON body, or an `HTTPException`. -/
inductive HttpResult where
  | ok (body : Json)
  | httpError (status : Nat) (detail : String)

/-- Python falsiness of an optional header value (`not authorization` is true
for a missing header and for an empty one). -/
def pyFalsyStrOpt : Option String → Bool
  | none => true
  | some s => s.isEmpty

-- ---------------------------------------------------------------------------
-- Prompt template.  The 10626-character literal of `src/main.py`
-- (lines 55-394) is stored as `tplPre ++ placeholder ++ "\n"`, with `tplPre`
-- split into chunks; their concatenation is exactly the source literal.
-- The chunk definitions appear at the end of this definition section.
-- ---------------------------------------------------------------------------

def tplChunk0 : String := "\nYou are a professional resume anonymizer. Your task is to remove ALL personally identifiable information (PII) from the following resume while preserving ALL non-PII content exactly as written.\n\n---\n\n\u00f0\u0178\u201d\u2019 CRITICAL RULES\n\n1. REMOVE ONLY the"
def tplChunk1 : String := " following PII elements:\n- Email addresses (all formats)\n- Phone numbers (all formats and countries)\n- Physical addresses (street, city, state, zip/postal codes)\n- Website URLs and domains (LinkedIn, GitHub, personal sites, etc.)\n- Social m"
def tplChunk2 : String := "edia handles (Twitter, Instagram, Stack Overflow, etc.)\n- Government-issued IDs (SSN, Aadhaar, PAN, Passport numbers)\n- Credential or certification IDs (e.g. Coursera, Google IDs)\n- Contact references (e.g. \"Raj Abhyanker \u00e2\u20ac\u201c +1 (408) 398-3"
def tplChunk3 : String := "126\")\n- Specific location mentions (city/town/neighborhood)\n- Any standalone \"Contact\" or \"Contact Information\" sections (remove entirely)\n\n2. PRESERVE EXACTLY (if present):\n- All job titles, company names, and role designations\n- All unive"
def tplChunk4 : String := "rsity, college, and school names\n- All degrees, majors, minors, specializations, academic honors (e.g. GPA, \"Summa Cum Laude\")\n- All skills, technologies, languages, frameworks, tools, platforms, libraries\n- All project titles, descriptions"
def tplChunk5 : String := ", outcomes, and features\n- All quantitative metrics (e.g. \"reduced costs by 30%\", \"led a 12-member team\")\n- All line breaks, bullet points, and original resume formatting\n- All certifications, course names, and issuing organizations\n- All d"
def tplChunk6 : String := "ates, durations, and timeframes (e.g. \"Jun 2022 - Present\", \"3 months\")\n- All language proficiencies (e.g. \"Fluent\", \"Native Proficiency\")\n- All awards, honors, recognitions, hackathon wins, etc.\n- All conferences, publications, speaking en"
def tplChunk7 : String := "gagements, talks\n- All volunteer positions, extracurricular leadership, committee involvement\n- All organizations, clubs, student teams, initiatives, and affiliations\n- All startups, products, and project brand names\n- All domains of focus "
def tplChunk8 : String := "(e.g. \"BioTech\", \"AI Safety\")\n- All architectures, workflows, and methodologies (e.g. \"Agile\", \"RAG\", \"CI/CD\")\n- All tools used in process (e.g. Figma, Notion, Jira, Tableau)\n\n3. CORRECT and NORMALIZE text:\n- Fix any spacing, word breaks, o"
def tplChunk9 : String := "r tokenization issues from PDF/OCR extraction  \n  e.g. \"c ustomer\" -> \"customer\", \"T oyota\" -> \"Toyota\"\n- Fix obvious typos or broken lines ONLY if clearly wrong  \n- Do not rephrase or paraphrase any content\n\n---\n\n\u00f0\u0178\u201d\u00a7 OUTPUT FORMAT - STRIC"
def tplChunk10 : String := "T JSON\n\nYou MUST return the sections array in this EXACT order, regardless of how they appear in the original resume:\n\n1. Summary (if present)\n2. Education (if present)\n3. Experience (if present)\n4. Projects (if present)\n5. Skills (if prese"
def tplChunk11 : String := "nt)\n6. Certifications (if present)\n7. Awards/Honors (if present)\n8. Publications (if present)\n9. Languages (if present)\n10. Volunteer/Organizations (if present)\n\nReturn a single, valid JSON object structured EXACTLY like this:\n\n\x7b\n  \"candida"
def tplChunk12 : String := "teName\": \"Akshat Gupta\",\n  \"sections\": [\n    \x7b\n      \"title\": \"Summary\",\n      \"type\": \"paragraphs\",\n      \"paragraphs\": [\"...\"]\n    \x7d,\n    \x7b\n      \"title\": \"Education\",\n      \"type\": \"education\",\n      \"items\": [...]\n    \x7d,\n    \x7b\n      \"ti"
def tplChunk13 : String := "tle\": \"Experience\",\n      \"type\": \"experience\",\n      \"items\": [...]\n    \x7d,\n    \x7b\n      \"title\": \"Projects\",\n      \"type\": \"projects\",\n      \"items\": [...]\n    \x7d,\n    \x7b\n      \"title\": \"Skills\",\n      \"type\": \"bullets\",\n      \"bullets\": [\".."
def tplChunk14 : String := ".\"]\n    \x7d,\n    \x7b\n      \"title\": \"Certifications\",\n      \"type\": \"certifications\",\n      \"items\": [...]\n    \x7d,\n    \x7b\n      \"title\": \"Honors-Awards\",\n      \"type\": \"awards\",\n      \"items\": [...]\n    \x7d,\n    \x7b\n      \"title\": \"Publications\",\n   "
def tplChunk15 : String := "   \"type\": \"publications\",\n      \"items\": [...]\n    \x7d,\n    \x7b\n      \"title\": \"Languages\",\n      \"type\": \"languages\",\n      \"items\": [...]\n    \x7d,\n    \x7b\n      \"title\": \"Volunteer\",\n      \"type\": \"volunteer\",\n      \"items\": [...]\n    \x7d\n  ],\n  \""
def tplChunk16 : String := "piiRemoved\": 9\n\x7d\n\nSECTION TYPE DEFINITIONS:\n\n**paragraphs**: For text-heavy sections like Summary/Objective\n\x7b\n  \"title\": \"Summary\",\n  \"type\": \"paragraphs\",\n  \"paragraphs\": [\"paragraph 1\", \"paragraph 2\"]\n\x7d\n\n**bullets**: For simple list secti"
def tplChunk17 : String := "ons like Top Skills\n\x7b\n  \"title\": \"Top Skills\",\n  \"type\": \"bullets\",\n  \"bullets\": [\"Skill 1\", \"Skill 2\", \"Skill 3\"]\n\x7d\n\n**experience**: For work history\n\x7b\n  \"title\": \"Experience\",\n  \"type\": \"experience\",\n  \"items\": [\n    \x7b\n      \"title\": \"Job"
def tplChunk18 : String := " Title\",\n      \"company\": \"Company Name\",\n      \"duration\": \"Jan 2020 - Present\",\n      \"responsibilities\": [\"responsibility 1\", \"responsibility 2\"]\n    \x7d\n  ]\n\x7d\n\n**education**: For academic background\n\x7b\n  \"title\": \"Education\",\n  \"type\": \"ed"
def tplChunk19 : String := "ucation\",\n  \"items\": [\n    \x7b\n      \"degree\": \"Bachelor of Technology - BTech, Computer Science\",\n      \"institution\": \"University Name\",\n      \"duration\": \"2018 - 2022\",\n      \"details\": null\n    \x7d\n  ]\n\x7d\n\n**projects**: For project work\n\x7b\n  "
def tplChunk20 : String := "\"title\": \"Projects\",\n  \"type\": \"projects\",\n  \"items\": [\n    \x7b\n      \"name\": \"Project Name\",\n      \"description\": \"Project description\",\n      \"technologies\": [\"Tech 1\", \"Tech 2\"]\n    \x7d\n  ]\n\x7d\n\n**languages**: For spoken languages\n\x7b\n  \"title\":"
def tplChunk21 : String := " \"Languages\",\n  \"type\": \"languages\",\n  \"items\": [\n    \x7b\n      \"name\": \"English\",\n      \"proficiency\": \"Native or Bilingual\"\n    \x7d\n  ]\n\x7d\n\n**certifications**: For professional certifications\n\x7b\n  \"title\": \"Certifications\",\n  \"type\": \"certifica"
def tplChunk22 : String := "tions\",\n  \"items\": [\n    \x7b\n      \"name\": \"Certification Name\",\n      \"duration\": null,\n      \"issuing_organization\": null,\n      \"credential_id\": \"\"\n    \x7d\n  ]\n\x7d\n\n**awards**: For honors and awards\n\x7b\n  \"title\": \"Honors/Awards\", (Choose the ri"
def tplChunk23 : String := "ght title)\n  \"type\": \"awards\",\n  \"items\": [\n    \x7b\n      \"name\": \"Award Name\",\n      \"duration\": null,\n      \"description\": null\n    \x7d\n  ]\n\x7d\n\n**volunteer**: For volunteer work and organizations\n\x7b\n  \"title\": \"Volunteer\",\n  \"type\": \"volunteer\""
def tplChunk24 : String := ",\n  \"items\": [\n    \x7b\n      \"role\": \"Role Title\",\n      \"organization\": \"Organization Name\",\n      \"duration\": \"2020 - 2021\",\n      \"location\": \"Metropolitan Area\",\n      \"description\": \"Description of work\"\n    \x7d\n  ]\n\x7d\n\n---\n\n\u00e2\u0161\u00a0\u00ef\u00b8 CRITICAL "
def tplChunk25 : String := "ORDERING INSTRUCTIONS\n\nTHIS IS ABSOLUTELY MANDATORY - DO NOT DEVIATE:\n\nStep 1: Parse ALL sections from the resume (do not skip any content except PII)\nStep 2: Identify which category each section belongs to\nStep 3: Separate sections into tw"
def tplChunk26 : String := "o groups:\n   - Group A: Standard sections (Summary, Education, Experience, Projects, Skills, Certifications, Awards, Publications, Languages, Volunteer)\n   - Group B: Any other sections not in the standard list (e.g., \"Patents\", \"Conference"
def tplChunk27 : String := "s\", \"Research Interests\", \"Professional Affiliations\", etc.)\nStep 4: Output sections in THIS EXACT ORDER:\n   FIRST - Standard sections in priority order:\n   1. Summary\n   2. Education\n   3. Experience\n   4. Projects\n   5. Skills (including "
def tplChunk28 : String := "\"Top Skills\", \"Technical Skills\", \"Core Competencies\")\n   6. Certifications\n   7. Awards/Honors\n   8. Publications\n   9. Languages\n   10. Volunteer\n   \n   THEN - All other sections (Group B) in their original order from the resume\n\nCRITICAL"
def tplChunk29 : String := ": You MUST include ALL sections from the resume except \"Contact\" sections. If there are sections like \"Patents\", \"Speaking Engagements\", \"Professional Memberships\", \"Research\", \"Interests\", etc., include them AFTER the standard sections in "
def tplChunk30 : String := "their original order.\n\nEXAMPLE: If the resume has these sections in this order:\n- Contact (SKIP - it's PII)\n- Top Skills\n- Patents\n- Languages\n- Certifications\n- Honors-Awards\n- Summary\n- Experience\n- Research Interests\n- Education\n\nYou MUS"
def tplChunk31 : String := "T reorder them to:\n- Summary (standard section #1)\n- Education (standard section #2)\n- Experience (standard section #3)\n- Top Skills (standard section #5)\n- Certifications (standard section #6)\n- Honors-Awards (standard section #7)\n- Langua"
def tplChunk32 : String := "ges (standard section #9)\n- Patents (other section - keep original position relative to other \"other\" sections)\n- Research Interests (other section - appears after Patents in original)\n\n---\n\n\u00e2\u0161\u00a0\u00ef\u00b8 ADDITIONAL RULES\n\n- Do NOT output any \"Cont"
def tplChunk33 : String := "act\" or \"Contact Information\" sections\n- MUST include ALL other sections from the resume, even if not in the standard list\n- For non-standard sections (e.g., \"Patents\", \"Conferences\", \"Interests\"), preserve their original title and structur"
def tplChunk34 : String := "e\n- If you encounter a section type not defined above, use type \"entries\" or \"paragraphs\" or \"bullets\" as appropriate\n- CRITICAL: Do NOT use em dashes (\u00e2\u20ac\u201d), use regular hyphens (-) for date ranges ONLY (e.g., \"2020 - 2022\")\n- CRITICAL: Do "
def tplChunk35 : String := "NOT use bullet characters (\u00e2\u20ac\u00a2) anywhere in the output\n- CRITICAL: Do NOT prefix list items with dashes (-) or any other symbols - return plain text strings in arrays\n- CRITICAL: When parsing responsibilities/bullets that start with \"- \" or"
def tplChunk36 : String := " \"\u00e2\u20ac\u00a2 \", remove these prefixes completely\n- Do NOT include null values - use empty strings \"\" or empty arrays []\n- Return ONLY valid JSON, no markdown, no code fences, no commentary\n- Do not hallucinate any information not in the original r"
def tplChunk37 : String := "esume\n- candidateName should be the person's full name as it appears at the top of the resume\n- PRESERVE ALL CONTENT except PII - missing any section content is a critical error\n- You MUST NOT create a section unless the resume text contain"
def tplChunk38 : String := "s actual content for that section.\n- If the resume does not include meaningful content for a section, completely omit that section from the output.\n- Do NOT output empty sections and do NOT output section titles without content.\n- If a sect"
def tplChunk39 : String := "ion exists but contains no extractable non-PII content, OMIT the section entirely instead of outputting empty arrays or empty strings.\n- Do NOT infer or assume any additional sections. Only create a section if the resume contains a clear he"
def tplChunk40 : String := "ading or identifiable grouped content.\n\n\n\nFORMATTING EXAMPLES:\n\nWRONG:\n\"responsibilities\": [\n  \"- Streamlined internal processes\",\n  \"\u00e2\u20ac\u00a2 Led a team of 10 engineers\"\n]\n\nCORRECT:\n\"responsibilities\": [\n  \"Streamlined internal processes\",\n  \"L"
def tplChunk41 : String := "ed a team of 10 engineers\"\n]\n\nWRONG: \"duration\": \"July 2021 \u00e2\u20ac\u201c December 2022\"\nCORRECT: \"duration\": \"July 2021 - December 2022\"\n\n### \u00e2\u0161\u00a0\u00ef\u00b8 FINAL COMPLIANCE CHECK\nBefore outputting, verify:\n1. Are standard sections in the correct order (Summ"
def tplChunk42 : String := "ary, Education, Experience, Projects, Skills, Certs, Awards, Pubs, Languages, Volunteer)?\n2. Are ALL other sections included after the standard ones?\n3. Is there any \"Contact\" section? (Remove it)\n4. Have you removed ALL bullet characters ("
def tplChunk43 : String := "\u00e2\u20ac\u00a2) and dash prefixes (-) from list items?\n5. Are em dashes (\u00e2\u20ac\u201d) replaced with regular hyphens (-)?\n6. Is the PII (phones, emails, links, addresses) gone?\n7. Is ALL non-PII content from the original resume preserved?\n8. Is the output vali"
def tplChunk44 : String := "d JSON?\n\n\u00f0\u0178\u201c Here is the resume text to anonymize:\n\n"

/-- The chunks of the template text before the placeholder, in order. -/
def tplChunkList : List (List Char) :=
  [tplChunk0.toList, tplChunk1.toList, tplChunk2.toList, tplChunk3.toList, tplChunk4.toList, tplChunk5.toList, tplChunk6.toList, tplChunk7.toList, tplChunk8.toList, tplChunk9.toList, tplChunk10.toList, tplChunk11.toList, tplChunk12.toList, tplChunk13.toList, tplChunk14.toList, tplChunk15.toList, tplChunk16.toList, tplChunk17.toList, tplChunk18.toList, tplChunk19.toList, tplChunk20.toList, tplChunk21.toList, tplChunk22.toList, tplChunk23.toList, tplChunk24.toList, tplChunk25.toList, tplChunk26.toList, tplChunk27.toList, tplChunk28.toList, tplChunk29.toList, tplChunk30.toList, tplChunk31.toList, tplChunk32.toList, tplChunk33.toList, tplChunk34.toList, tplChunk35.toList, tplChunk36.toList, tplChunk37.toList, tplChunk38.toList, tplChunk39.toList, tplChunk40.toList, tplChunk41.toList, tplChunk42.toList, tplChunk43.toList, tplChunk44.toList]

/-- Prefix of the prompt template before the placeholder. -/
def tplPre : List Char := catChunks tplChunkList

/-- `PROMPT_TEMPLATE` of `src/main.py` (lines 55-394): the text before the
placeholder, the placeholder itself, and a final newline. -/
def PROMPT_TEMPLATE : List Char := tplPre ++ placeholder ++ ['\n']

/-- Line 429: `PROMPT_TEMPLATE.replace("{RESUME_TEXT}", resume_text)`. -/
def buildPrompt (resumeText : List Char) : List Char :=
  pyReplace placeholder resumeText PROMPT_TEMPLATE

/-- The `POST /api/anonymize` handler (lines 413-461).  The external
generation call and `json.loads` are parameters: `generate` returns the
response text (`Except.error` for a raised exception, `none`/`some` for the
`text` attribute), `parseJson` models `json.loads`. -/
def anonymize (generate : List Char → Except String (Option (List Char)))
    (parseJson : List Char → Except String Json)
    (authorization orgId : Option String)
    (resumeText : List Char) : HttpResult :=
  if pyFalsyStrOpt authorization then .httpError 401 "Missing Authorization header"
  else if pyFalsyStrOpt orgId then .httpError 400 "Missing org-id header"
  else if resumeText = [] ∨ (pyStrip resumeText).length < 50 then
    .httpError 400 "Invalid resumeText"
  else
    let prompt := buildPrompt resumeText
    match generate prompt with
    | .error e => .httpError 500 (FAILED_PREFIX ++ e)
    | .ok textOpt =>
      let text := textOpt.getD []
      if text.isEmpty then .httpError 500 (FAILED_PREFIX ++ "No response text from Gemini")
      else
        match normalizeUpstream parseJson text with
        | .ok body => .ok body
        | .error e => .httpError 500 (FAILED_PREFIX ++ e)

-- ---------------------------------------------------------------------------
-- JSON serialization.  The repository never serializes JSON; serialization
-- only appears in the round-trip property of the spec.
-- ---------------------------------------------------------------------------

/-- Modelled from the spec: JSON string escaping as performed by the external
`json.dumps` (the repository contains no serializer).  Quote, backslash and
the common control characters are escaped; other characters pass through. -/
def escChar (c : Char) : List Char :=
  if c = Char.ofNat 34 then [Char.ofNat 92, Char.ofNat 34]
  else if c = Char.ofNat 92 then [Char.ofNat 92, Char.ofNat 92]
  else if c = '\n' then [Char.ofNat 92, 'n']
  else if c = '\r' then [Char.ofNat 92, 'r']
  else if c = '\t' then [Char.ofNat 92, 't']
  else [c]

/-- Modelled from the spec: serialization of a JSON string literal. -/
def serializeStr (s : String) : List Char :=
  Char.ofNat 34 :: (s.toList.map escChar).flatten ++ [Char.ofNat 34]

mutual
/-- Modelled from the spec: serialization of a JSON value to text, in the
style of `json.dumps` (`", "` between items, `": "` after keys). -/
def serializeJson : Json → List Char
  | .null => "null".toList
  | .bool true => "true".toList
  | .bool false => "false".toList
  | .num n => (toString n).toList
  | .str s => serializeStr s
  | .arr es => '[' :: serializeArr es ++ [']']
  | .obj kvs => Char.ofNat 123 :: serializeObj kvs ++ [Char.ofNat 125]

/-- Modelled from the spec: comma-separated serialization of array items. -/
def serializeArr : List Json → List Char
  | [] => []
  | [e] => serializeJson e
  | e :: rest => serializeJson e ++ ',' :: ' ' :: serializeArr rest

/-- Modelled from the spec: comma-separated serialization of object items. -/
def serializeObj : List (String × Json) → List Char
  | [] => []
  | [(k, v)] => serializeStr k ++ ':' :: ' ' :: serializeJson v
  | (k, v) :: rest => serializeStr k ++ ':' :: ' ' :: serializeJson v ++ ',' :: ' ' :: serializeObj rest
end

/-- A well-formed NormalizedResult of the sectioned shape: a string
`candidateName`, a sequence `sections`, an integer `piiRemoved`. -/
def mkResult (cn : String) (secs : List Json) (pii : Int) : Json :=
  Json.obj [("candidateName", Json.str cn), ("sections", Json.arr secs),
            ("piiRemoved", Json.num pii)]

-- ---------------------------------------------------------------------------
-- Concrete collaborator instances used by the closed theorems.
-- ---------------------------------------------------------------------------

/-- A generation call that returns a fixed response text. -/
def genConst (t : List Char) : List Char → Except String (Option (List Char)) :=
  fun _ => .ok (some t)

/-- A parser that returns a fixed value on every input. -/
def parseConst (v : Json) : List Char → Except String Json :=
  fun _ => .ok v

/-- A parser that fails on every input with a fixed message. -/
def parseFail (e : String) : List Char → Except String Json :=
  fun _ => .error e

/-- A parser that recognises exactly one input text. -/
def parseExact (l : List Char) (v : Json) : List Char → Except String Json :=
  fun x => if x = l then .ok v else .error "unexpected input"

/-- A 60-character valid resume text. -/
def sampleResume : List Char := List.replicate 60 'a'

-- ===========================================================================
-- Theorems.
-- ===========================================================================

theorem allWs_cons_head {c : Char} {t : List Char} (h : AllWs (c :: t)) :
    isPySpace c = true :=
  h c (by simp)

theorem allWs_cons_tail {c : Char} {t : List Char} (h : AllWs (c :: t)) :
    AllWs t :=
  fun x hx => h x (by simp [hx])

theorem allWs_reverse {w : List Char} (h : AllWs w) : AllWs w.reverse :=
  fun c hc => h c (List.mem_reverse.mp hc)

theorem dropWs_cons_of_ws {c : Char} (h : isPySpace c = true) (l : List Char) :
    dropWs (c :: l) = dropWs l := by
  simp [dropWs, h]

theorem dropWs_cons_of_not {c : Char} (h : isPySpace c = false) (l : List Char) :
    dropWs (c :: l) = c :: l := by
  simp [dropWs, h]

theorem dropWs_append_of_ws {w : List Char} (hw : AllWs w) (l : List Char) :
    dropWs (w ++ l) = dropWs l := by
  induction w with
  | nil => simp
  | cons c t ih =>
    rw [List.cons_append, dropWs_cons_of_ws (allWs_cons_head hw)]
    exact ih (allWs_cons_tail hw)

theorem dropWs_eq_nil_of_allWs {w : List Char} (hw : AllWs w) : dropWs w = [] := by
  have h := dropWs_append_of_ws hw []
  simpa using h

theorem dropWs_head_not_ws : ∀ {l c t}, dropWs l = c :: t → isPySpace c = false := by
  intro l
  induction l with
  | nil => intro c t h; simp [dropWs] at h
  | cons a r ih =>
    intro c t h
    by_cases ha : isPySpace a = true
    · rw [dropWs_cons_of_ws ha] at h
      exact ih h
    · have ha' : isPySpace a = false := by simpa using ha
      rw [dropWs_cons_of_not ha'] at h
      cases h
      exact ha'

theorem dropWs_idem (l : List Char) : dropWs (dropWs l) = dropWs l := by
  cases h : dropWs l with
  | nil => rfl
  | cons c t => exact dropWs_cons_of_not (dropWs_head_not_ws h) t

theorem dropWs_suffix (l : List Char) : dropWs l <:+ l := by
  induction l with
  | nil => simp [dropWs]
  | cons c t ih =>
    by_cases hc : isPySpace c = true
    · rw [dropWs_cons_of_ws hc]
      exact ih.trans (List.suffix_cons c t)
    · rw [dropWs_cons_of_not (by simpa using hc)]

theorem pyStrip_nil : pyStrip [] = [] := rfl

theorem pyStrip_of_dropWs_nil {l : List Char} (h : dropWs l = []) :
    pyStrip l = [] := by
  simp [pyStrip, h, dropWs]

theorem pyStrip_idem (l : List Char) : pyStrip (pyStrip l) = pyStrip l := by
  cases hu : dropWs l with
  | nil =>
    have h1 : pyStrip l = [] := pyStrip_of_dropWs_nil hu
    rw [h1, pyStrip_nil]
  | cons c t =>
    have hc : isPySpace c = false := dropWs_head_not_ws hu
    have hps : pyStrip l = (dropWs ((c :: t).reverse)).reverse := by
      rw [pyStrip, hu]
    cases hv : dropWs ((c :: t).reverse) with
    | nil => rw [hps, hv, List.reverse_nil, pyStrip_nil]
    | cons d r =>
      -- `d :: r` is a suffix of `(c :: t).reverse`, so its reverse is a
      -- prefix of `c :: t` and starts with `c`.
      have hsuf : (d :: r) <:+ (c :: t).reverse := by
        rw [← hv]; exact dropWs_suffix _
      have hpre : (d :: r).reverse <+: (c :: t) := by
        have := List.reverse_prefix.mpr hsuf
        simpa using this
      obtain ⟨z, hz⟩ := hpre
      have hrevne : (d :: r).reverse ≠ [] := by simp
      obtain ⟨e, r2, he⟩ : ∃ e r2, (d :: r).reverse = e :: r2 := by
        cases hrr : (d :: r).reverse with
        | nil => exact absurd hrr hrevne
        | cons e r2 => exact ⟨e, r2, rfl⟩
      have hec : e = c := by
        rw [he] at hz
        simpa using congrArg (fun l => l.head?) hz
      -- now compute
      have hdrop1 : dropWs ((d :: r).reverse) = (d :: r).reverse := by
        rw [he, hec]
        exact dropWs_cons_of_not hc _
      have hdrop2 : dropWs (d :: r) = d :: r :=
        dropWs_cons_of_not (dropWs_head_not_ws hv) r
      rw [hps, hv, pyStrip, hdrop1, List.reverse_reverse, hdrop2]

theorem pyStrip_rev (l : List Char) :
    (pyStrip l).reverse = dropWs ((dropWs l).reverse) := by
  simp [pyStrip]

-- ---------------------------------------------------------------------------
-- Facts about the fence marker and the `json` tag.
-- ---------------------------------------------------------------------------

theorem fence_eq : fence = [Char.ofNat 96, Char.ofNat 96, Char.ofNat 96] := by decide

theorem fence_reverse : fence.reverse = fence := by decide

theorem isPySpace_backquote : isPySpace (Char.ofNat 96) = false := by decide

theorem dropWs_fence_append (X : List Char) : dropWs (fence ++ X) = fence ++ X := by
  rw [fence_eq, List.cons_append, dropWs_cons_of_not isPySpace_backquote]

theorem dropWs_fence : dropWs fence = fence := by decide

theorem allWs_of_dropWs_nil : ∀ {s : List Char}, dropWs s = [] → AllWs s := by
  intro s
  induction s with
  | nil => intro _ c hc; simp at hc
  | cons a s' ih =>
    intro h c hc
    by_cases ha : isPySpace a = true
    · rw [dropWs_cons_of_ws ha] at h
      rcases List.mem_cons.mp hc with rfl | hc2
      · exact ha
      · exact ih h c hc2
    · rw [dropWs_cons_of_not (by simpa using ha)] at h
      cases h

theorem fence_drop_append (X : List Char) : (fence ++ X).drop 3 = X := by
  rw [fence_eq]; rfl

theorem fence_noJson : ∀ z ∈ fence, NoJsonChar z := by decide

theorem ws_noJson {z : Char} (h : isPySpace z = true) : NoJsonChar z := by
  have hmem : z = ' ' ∨ z = '\t' ∨ z = '\n' ∨ z = '\r' ∨ z = '\x0b' ∨ z = '\x0c' := by
    simp only [isPySpace, Bool.or_eq_true, beq_iff_eq] at h
    tauto
  rcases hmem with h | h | h | h | h | h <;> subst h <;> decide

theorem json_chars : "json".toList = ['j', 's', 'o', 'n'] := by decide

theorem ciJson4_of_head {a : Char} (ha : a.toLower ≠ 'j') (r : List Char) :
    ciJson4 (a :: r) = false := by
  by_contra hcon
  simp only [Bool.not_eq_false] at hcon
  rcases r with _ | ⟨b, _ | ⟨c, _ | ⟨d, r⟩⟩⟩ <;> simp [ciJson4] at hcon
  exact ha (by tauto)

theorem ciJson4_append {s Z : List Char} (hs : ciJson4 s = false)
    (hZ : ∀ z ∈ Z, NoJsonChar z) : ciJson4 (s ++ Z) = false := by
  rcases s with _ | ⟨a, _ | ⟨b, _ | ⟨c, _ | ⟨d, r⟩⟩⟩⟩
  · -- empty: the window is drawn from `Z`, whose head cannot match `j`
    rcases Z with _ | ⟨z0, Z1⟩
    · simp [ciJson4]
    · exact ciJson4_of_head (hZ z0 (by simp)).1 Z1
  · by_contra hcon
    simp only [Bool.not_eq_false] at hcon
    rcases Z with _ | ⟨z0, _ | ⟨z1, _ | ⟨z2, Z3⟩⟩⟩ <;> simp [ciJson4] at hcon
    exact (hZ z0 (by simp)).2.1 (by tauto)
  · by_contra hcon
    simp only [Bool.not_eq_false] at hcon
    rcases Z with _ | ⟨z0, _ | ⟨z1, Z2⟩⟩ <;> simp [ciJson4] at hcon
    exact (hZ z0 (by simp)).2.2.1 (by tauto)
  · by_contra hcon
    simp only [Bool.not_eq_false] at hcon
    rcases Z with _ | ⟨z0, Z1⟩ <;> simp [ciJson4] at hcon
    exact (hZ z0 (by simp)).2.2.2 (by tauto)
  · by_contra hcon
    simp only [Bool.not_eq_false] at hcon
    simp [ciJson4] at hs hcon
    tauto

theorem stripJsonTag_of_false {l : List Char} (h : ciJson4 l = false) :
    stripJsonTag l = l := by
  simp [stripJsonTag, h]

theorem jsonTag_shape {tag : List Char} (htag : tag.map Char.toLower = "json".toList) :
    ∃ a b c d, tag = [a, b, c, d] ∧ a.toLower = 'j' ∧ b.toLower = 's' ∧
      c.toLower = 'o' ∧ d.toLower = 'n' := by
  rw [json_chars] at htag
  rcases tag with _ | ⟨a, _ | ⟨b, _ | ⟨c, _ | ⟨d, _ | ⟨e, t⟩⟩⟩⟩⟩ <;> simp at htag
  exact ⟨a, b, c, d, rfl, htag.1, htag.2.1, htag.2.2.1, htag.2.2.2⟩

theorem stripJsonTag_tag {tag rest : List Char}
    (htag : tag.map Char.toLower = "json".toList) :
    stripJsonTag (tag ++ rest) = rest := by
  obtain ⟨a, b, c, d, hts, ha, hb, hc, hd⟩ := jsonTag_shape htag
  subst hts
  have hci : ciJson4 ([a, b, c, d] ++ rest) = true := by
    simp [ciJson4, ha, hb, hc, hd]
  rw [stripJsonTag, if_pos hci]
  rfl

-- ---------------------------------------------------------------------------
-- Reduction of the two regex substitutions.
-- ---------------------------------------------------------------------------

theorem subLeadingFence_append (X : List Char) :
    subLeadingFence (fence ++ X) = dropWs (stripJsonTag X) := by
  have h1 : fence.isPrefixOf (fence ++ X) = true := by
    simp [List.isPrefixOf_iff_prefix]
  rw [subLeadingFence, if_pos h1, fence_drop_append]

theorem subLeadingFence_of_not {l : List Char} (h : ¬ fence <+: l) :
    subLeadingFence l = l := by
  rw [subLeadingFence, if_neg]
  simpa [List.isPrefixOf_iff_prefix] using h

theorem fence_drop4_cons_append (X : List Char) :
    (('\n' :: fence) ++ X).drop 4 = X := by
  rw [fence_eq]; rfl

theorem subTrailingFence_of_rev {B R : List Char} (h : B.reverse = fence ++ R) :
    subTrailingFence B = (dropWs R).reverse := by
  have h1 : fence.isPrefixOf B.reverse = true := by
    simp [List.isPrefixOf_iff_prefix, h]
  rw [subTrailingFence, if_pos h1, h, fence_drop_append]

theorem subTrailingFence_of_not {B : List Char} (h1 : ¬ fence <+: B.reverse)
    (h2 : ¬ ('\n' :: fence) <+: B.reverse) : subTrailingFence B = B := by
  rw [subTrailingFence, if_neg, if_neg]
  · simpa [List.isPrefixOf_iff_prefix] using h2
  · simpa [List.isPrefixOf_iff_prefix] using h1

/-- When the (already right-stripped) input neither starts nor ends with a
fence, both substitutions are the identity. -/
theorem stripCodeFences_plain {s : List Char} (h1 : ¬ fence <+: pyStrip s)
    (h3 : ¬ fence <:+ pyStrip s) : stripCodeFences s = pyStrip s := by
  have hlead : subLeadingFence (pyStrip s) = pyStrip s := subLeadingFence_of_not h1
  have hnotrev : ¬ fence <+: (pyStrip s).reverse := by
    intro hcon
    rw [← fence_reverse] at hcon
    exact h3 (List.reverse_prefix.mp hcon)
  have hnotnl : ¬ ('\n' :: fence) <+: (pyStrip s).reverse := by
    intro hcon
    obtain ⟨z, hz⟩ := hcon
    have hd : dropWs ((dropWs s).reverse) = '\n' :: (fence ++ z) := by
      rw [← pyStrip_rev, ← hz, List.cons_append]
    have hfalse := dropWs_head_not_ws hd
    have hns : isPySpace '\n' = true := by decide
    rw [hns] at hfalse
    exact Bool.noConfusion hfalse
  have htrail : subTrailingFence (pyStrip s) = pyStrip s :=
    subTrailingFence_of_not hnotrev hnotnl
  rw [stripCodeFences, hlead, htrail, pyStrip_idem]

theorem dropWs_append_of_cons :
    ∀ {s : List Char} {c t} (r : List Char), dropWs s = c :: t →
      dropWs (s ++ r) = c :: t ++ r := by
  intro s
  induction s with
  | nil => intro c t r h; simp [dropWs] at h
  | cons a s' ih =>
    intro c t r h
    by_cases ha : isPySpace a = true
    · rw [dropWs_cons_of_ws ha] at h
      rw [List.cons_append, dropWs_cons_of_ws ha]
      exact ih r h
    · have ha' : isPySpace a = false := by simpa using ha
      rw [dropWs_cons_of_not ha'] at h
      cases h
      rw [List.cons_append, dropWs_cons_of_not ha']

/-- The case split on the optional tag: after the backticks are consumed, the
greedy `(?:json)?\s*` leaves exactly `dropWs (s ++ (w3 ++ fence))`. -/
theorem stripTag_dropWs {tag w2 s w3 : List Char}
    (hw2 : AllWs w2) (hw3 : AllWs w3)
    (htag : tag = [] ∨ tag.map Char.toLower = "json".toList)
    (hjson : ciJson4 (dropWs s) = false) :
    dropWs (stripJsonTag (tag ++ (w2 ++ (s ++ (w3 ++ fence))))) =
      dropWs (s ++ (w3 ++ fence)) := by
  have hZ : ∀ z ∈ w3 ++ fence, NoJsonChar z := by
    intro z hz
    rcases List.mem_append.mp hz with hz | hz
    · exact ws_noJson (hw3 z hz)
    · exact fence_noJson z hz
  have hR : ciJson4 (w2 ++ (s ++ (w3 ++ fence))) = false := by
    rcases w2 with _ | ⟨g, w2'⟩
    · rw [List.nil_append]
      rcases hs : s with _ | ⟨a, s'⟩
      · rw [List.nil_append]
        rcases w3 with _ | ⟨f, w3'⟩
        · simp only [List.nil_append]
          decide
        · exact ciJson4_of_head (ws_noJson (allWs_cons_head hw3)).1 _
      · by_cases haw : isPySpace a = true
        · exact ciJson4_of_head (ws_noJson haw).1 _
        · have ha' : isPySpace a = false := by simpa using haw
          have hj2 : ciJson4 (a :: s') = false := by
            rw [hs, dropWs_cons_of_not ha'] at hjson
            exact hjson
          exact ciJson4_append hj2 hZ
    · exact ciJson4_of_head (ws_noJson (allWs_cons_head hw2)).1 _
  rcases htag with htag | htag
  · subst htag
    rw [List.nil_append, stripJsonTag_of_false hR, dropWs_append_of_ws hw2]
  · rw [stripJsonTag_tag htag, dropWs_append_of_ws hw2]

/-- Computation of `_strip_code_fences` on a fenced wrapping: the result is
`s.strip()`, independent of the wrapping. -/
theorem stripCodeFences_wrapFenced {w1 tag w2 s w3 w4 : List Char}
    (hw1 : AllWs w1) (hw2 : AllWs w2) (hw3 : AllWs w3) (hw4 : AllWs w4)
    (htag : tag = [] ∨ tag.map Char.toLower = "json".toList)
    (hjson : ciJson4 (dropWs s) = false) :
    stripCodeFences (wrapFenced w1 tag w2 s w3 w4) = pyStrip s := by
  -- Step 1: the outer strip removes `w1` and `w4`.
  have hA : pyStrip (wrapFenced w1 tag w2 s w3 w4) =
      fence ++ (tag ++ (w2 ++ (s ++ (w3 ++ fence)))) := by
    rw [wrapFenced, pyStrip]
    rw [show w1 ++ fence ++ tag ++ w2 ++ s ++ w3 ++ fence ++ w4 =
        w1 ++ (fence ++ (tag ++ (w2 ++ (s ++ (w3 ++ (fence ++ w4)))))) by
      simp [List.append_assoc]]
    rw [dropWs_append_of_ws hw1, dropWs_fence_append]
    rw [show fence ++ (tag ++ (w2 ++ (s ++ (w3 ++ (fence ++ w4))))) =
        (fence ++ (tag ++ (w2 ++ (s ++ (w3 ++ fence))))) ++ w4 by
      simp [List.append_assoc]]
    rw [List.reverse_append, dropWs_append_of_ws (allWs_reverse hw4)]
    rw [show (fence ++ (tag ++ (w2 ++ (s ++ (w3 ++ fence))))).reverse =
        fence.reverse ++ ((w3.reverse ++ (s.reverse ++ (w2.reverse ++ tag.reverse))) ++
          fence.reverse) by
      simp [List.reverse_append, List.append_assoc]]
    rw [fence_reverse, dropWs_fence_append]
    simp [List.reverse_append, List.append_assoc, fence_reverse]
  rw [stripCodeFences, hA, subLeadingFence_append,
    stripTag_dropWs hw2 hw3 htag hjson]
  -- Step 2: case on whether `s` is pure whitespace.
  cases hu : dropWs s with
  | nil =>
    have hsw : AllWs s := allWs_of_dropWs_nil hu
    rw [dropWs_append_of_ws hsw, dropWs_append_of_ws hw3, dropWs_fence]
    have hrev : fence.reverse = fence ++ [] := by simp [fence_reverse]
    rw [subTrailingFence_of_rev hrev]
    rw [pyStrip_of_dropWs_nil hu]
    rfl
  | cons c t =>
    rw [dropWs_append_of_cons _ hu]
    have hrev : ((c :: t) ++ (w3 ++ fence)).reverse =
        fence ++ (w3.reverse ++ (c :: t).reverse) := by
      simp [List.reverse_append, List.append_assoc, fence_reverse]
    rw [subTrailingFence_of_rev hrev, dropWs_append_of_ws (allWs_reverse hw3)]
    have hfinal : (dropWs ((c :: t).reverse)).reverse = pyStrip s := by
      rw [pyStrip, hu]
    rw [hfinal, pyStrip_idem]

/-- C4: the fence-stripping function is NOT invariant under fenced wrapping
for every text `s`: when the content itself is a fence marker, stripping the
wrapped text yields "```" while stripping the bare text yields "".  Concrete
input: s = "```" wrapped as "```json\n```\n```". -/
theorem claim_C4_counterexample :
    stripCodeFences (wrapFenced [] ("json".toList) ['\n'] fence ['\n'] []) ≠
      stripCodeFences fence := by
  decide

/-- C4 (amended): for every text `s` whose stripped form neither starts nor
ends with the fence marker and does not begin with a case-insensitive `json`
prefix, applying `_strip_code_fences` to any fenced wrapping of `s` (opening
fence with an optional `json` tag in any letter case, closing fence, optional
surrounding whitespace) yields content byte-identical to applying it to the
unwrapped text `s`. -/
theorem claim_C4_amended {w1 tag w2 s w3 w4 : List Char}
    (hw1 : AllWs w1) (hw2 : AllWs w2) (hw3 : AllWs w3) (hw4 : AllWs w4)
    (htag : tag = [] ∨ tag.map Char.toLower = "json".toList)
    (hpre : ¬ fence <+: pyStrip s) (hsuf : ¬ fence <:+ pyStrip s)
    (hjson : ciJson4 (dropWs s) = false) :
    stripCodeFences (wrapFenced w1 tag w2 s w3 w4) = stripCodeFences s := by
  rw [stripCodeFences_wrapFenced hw1 hw2 hw3 hw4 htag hjson,
    stripCodeFences_plain hpre hsuf]

/-- Closed instance of the amended C4 theorem, at
s = "hello world", tag = "JSON", newline separators. -/
theorem claim_C4_witness :
    (AllWs (" ".toList) ∧ AllWs ['\n'] ∧ AllWs ([] : List Char) ∧
      ("JSON".toList.map Char.toLower = "json".toList) ∧
      ¬ fence <+: pyStrip ("hello world".toList) ∧
      ¬ fence <:+ pyStrip ("hello world".toList) ∧
      ciJson4 (dropWs ("hello world".toList)) = false) ∧
    stripCodeFences
        (wrapFenced (" ".toList) ("JSON".toList) ['\n'] ("hello world".toList) ['\n'] []) =
      stripCodeFences ("hello world".toList) :=
  ⟨by decide,
    claim_C4_amended (by decide) (by decide) (by decide) (by decide)
      (Or.inr (by decide)) (by decide) (by decide) (by decide)⟩

-- ---------------------------------------------------------------------------
-- `dict.get` versus key lookup.
-- ---------------------------------------------------------------------------

theorem jsonGet_of_lookup_none {kvs : List (String × Json)} {k : String} {d : Json}
    (h : kvs.lookup k = none) : jsonGet kvs k d = d := by
  induction kvs with
  | nil => rfl
  | cons p t ih =>
    obtain ⟨k2, v⟩ := p
    by_cases hk : k2 = k
    · subst hk
      simp [List.lookup] at h
    · have hbeq : (k == k2) = false := beq_eq_false_iff_ne.mpr (fun he => hk he.symm)
      rw [jsonGet, if_neg hk]
      apply ih
      simpa [List.lookup, hbeq] using h

theorem jsonGet_of_lookup_some {kvs : List (String × Json)} {k : String} {d v : Json}
    (h : kvs.lookup k = some v) : jsonGet kvs k d = v := by
  induction kvs with
  | nil => simp [List.lookup] at h
  | cons p t ih =>
    obtain ⟨k2, v2⟩ := p
    by_cases hk : k2 = k
    · subst hk
      simp [List.lookup] at h
      rw [jsonGet, if_pos rfl, h]
    · have hbeq : (k == k2) = false := beq_eq_false_iff_ne.mpr (fun he => hk he.symm)
      rw [jsonGet, if_neg hk]
      apply ih
      simpa [List.lookup, hbeq] using h

-- ---------------------------------------------------------------------------
-- Reduction of a successful request.
-- ---------------------------------------------------------------------------

theorem anonymize_ok_run {gen : List Char → Except String (Option (List Char))}
    {parse : List Char → Except String Json} {auth org : Option String}
    {rt text : List Char} {kvs : List (String × Json)}
    (hauth : pyFalsyStrOpt auth = false) (horg : pyFalsyStrOpt org = false)
    (hlen : ¬ (rt = [] ∨ (pyStrip rt).length < 50))
    (hgen : gen (buildPrompt rt) = .ok (some text)) (htext : text ≠ [])
    (hparse : parse (stripCodeFences text) = .ok (Json.obj kvs)) :
    anonymize gen parse auth org rt =
      .ok (Json.obj [("data", Json.obj (buildData kvs))]) := by
  have htext2 : text.isEmpty = false := by
    cases text with
    | nil => exact absurd rfl htext
    | cons c t => rfl
  simp only [anonymize, hauth, horg, Bool.false_eq_true, if_false, if_neg hlen,
    hgen, Option.getD_some, htext2, normalizeUpstream, hparse]

/-- C1: for every successfully parsed upstream JSON object (and a request
that passes header and length validation), the lenient normalizer answers
with status 200 and a body in which every expected key is present, with
type-correct defaults for absent keys: `candidateName` defaults to `""`,
`sections` to `[]`, `piiRemoved` to `0`. -/
theorem claim_C1 (gen : List Char → Except String (Option (List Char)))
    (parse : List Char → Except String Json) (auth org : Option String)
    (rt text : List Char) (kvs : List (String × Json))
    (hauth : pyFalsyStrOpt auth = false) (horg : pyFalsyStrOpt org = false)
    (hlen : ¬ (rt = [] ∨ (pyStrip rt).length < 50))
    (hgen : gen (buildPrompt rt) = .ok (some text)) (htext : text ≠ [])
    (hparse : parse (stripCodeFences text) = .ok (Json.obj kvs)) :
    anonymize gen parse auth org rt =
      .ok (Json.obj [("data", Json.obj (buildData kvs))]) ∧
    (buildData kvs).map Prod.fst =
      ["candidateName", "sections", "piiRemoved", "id", "processedBy", "processingTime"] ∧
    (kvs.lookup "candidateName" = none →
      jsonGet kvs "candidateName" (Json.str "") = Json.str "") ∧
    (kvs.lookup "sections" = none →
      jsonGet kvs "sections" (Json.arr []) = Json.arr []) ∧
    (kvs.lookup "piiRemoved" = none →
      jsonGet kvs "piiRemoved" (Json.num 0) = Json.num 0) := by
  refine ⟨anonymize_ok_run hauth horg hlen hgen htext hparse, rfl, ?_, ?_, ?_⟩
  · exact fun h => jsonGet_of_lookup_none h
  · exact fun h => jsonGet_of_lookup_none h
  · exact fun h => jsonGet_of_lookup_none h

/-- Closed instance of C1: the upstream object is `{}`, all three defaults
appear in the 200 response. -/
theorem claim_C1_witness :
    (pyFalsyStrOpt (some "Bearer token") = false ∧
      pyFalsyStrOpt (some "org-1") = false ∧
      ¬ (sampleResume = [] ∨ (pyStrip sampleResume).length < 50) ∧
      genConst ("x".toList) (buildPrompt sampleResume) = .ok (some ("x".toList)) ∧
      ("x".toList ≠ ([] : List Char)) ∧
      parseConst (Json.obj []) (stripCodeFences ("x".toList)) = .ok (Json.obj [])) ∧
    anonymize (genConst ("x".toList)) (parseConst (Json.obj []))
        (some "Bearer token") (some "org-1") sampleResume =
      .ok (Json.obj [("data", Json.obj (buildData []))]) :=
  ⟨⟨rfl, rfl, by decide, rfl, by decide, rfl⟩,
    (claim_C1 (genConst ("x".toList)) (parseConst (Json.obj []))
      (some "Bearer token") (some "org-1") sampleResume ("x".toList) []
      rfl rfl (by decide) rfl (by decide) rfl).1⟩

/-- C2: FALSE as stated — the normalizer does not guard against nulls or
wrong-typed values for keys that are present.  Concrete input: the upstream
object maps `candidateName` to `null`; the 200 response carries that `null`
where an empty string is expected. -/
theorem claim_C2_counterexample :
    anonymize (genConst ("x".toList)) (parseConst (Json.obj [("candidateName", Json.null)]))
        (some "Bearer token") (some "org-1") sampleResume =
      .ok (Json.obj [("data", Json.obj
        [("candidateName", Json.null),
         ("sections", Json.arr []),
         ("piiRemoved", Json.num 0),
         ("id", Json.str "local-test-id"),
         ("processedBy", Json.str "gemini-local"),
         ("processingTime", Json.num 1200)])]) ∧
    Json.null ≠ Json.str "" :=
  ⟨rfl, fun h => Json.noConfusion h⟩

/-- C2 (amended): the normalized result never misses a required key — all six
response keys are always present — but values of present upstream keys are
passed through unchanged, so freedom from nulls and type-correctness hold
exactly when every present upstream value already has the declared type. -/
theorem claim_C2_amended (gen : List Char → Except String (Option (List Char)))
    (parse : List Char → Except String Json) (auth org : Option String)
    (rt text : List Char) (kvs : List (String × Json))
    (hauth : pyFalsyStrOpt auth = false) (horg : pyFalsyStrOpt org = false)
    (hlen : ¬ (rt = [] ∨ (pyStrip rt).length < 50))
    (hgen : gen (buildPrompt rt) = .ok (some text)) (htext : text ≠ [])
    (hparse : parse (stripCodeFences text) = .ok (Json.obj kvs))
    (hcn : ∀ v, kvs.lookup "candidateName" = some v → ∃ s2, v = Json.str s2)
    (hsec : ∀ v, kvs.lookup "sections" = some v → ∃ es, v = Json.arr es)
    (hpii : ∀ v, kvs.lookup "piiRemoved" = some v → ∃ n, v = Json.num n) :
    anonymize gen parse auth org rt =
      .ok (Json.obj [("data", Json.obj (buildData kvs))]) ∧
    (buildData kvs).map Prod.fst =
      ["candidateName", "sections", "piiRemoved", "id", "processedBy", "processingTime"] ∧
    (∃ s2, jsonGet kvs "candidateName" (Json.str "") = Json.str s2) ∧
    (∃ es, jsonGet kvs "sections" (Json.arr []) = Json.arr es) ∧
    (∃ n, jsonGet kvs "piiRemoved" (Json.num 0) = Json.num n) := by
  refine ⟨anonymize_ok_run hauth horg hlen hgen htext hparse, rfl, ?_, ?_, ?_⟩
  · cases hl : kvs.lookup "candidateName" with
    | none => exact ⟨"", jsonGet_of_lookup_none hl⟩
    | some v =>
      obtain ⟨s2, rfl⟩ := hcn v hl
      exact ⟨s2, jsonGet_of_lookup_some hl⟩
  · cases hl : kvs.lookup "sections" with
    | none => exact ⟨[], jsonGet_of_lookup_none hl⟩
    | some v =>
      obtain ⟨es, rfl⟩ := hsec v hl
      exact ⟨es, jsonGet_of_lookup_some hl⟩
  · cases hl : kvs.lookup "piiRemoved" with
    | none => exact ⟨0, jsonGet_of_lookup_none hl⟩
    | some v =>
      obtain ⟨n, rfl⟩ := hpii v hl
      exact ⟨n, jsonGet_of_lookup_some hl⟩

/-- Closed instance of the amended C2 theorem, with a well-typed upstream
object. -/
theorem claim_C2_witness :
    (pyFalsyStrOpt (some "Bearer token") = false ∧
      ¬ (sampleResume = [] ∨ (pyStrip sampleResume).length < 50)) ∧
    anonymize (genConst ("x".toList))
        (parseConst (Json.obj [("candidateName", Json.str "A"), ("piiRemoved", Json.num 3)]))
        (some "Bearer token") (some "org-1") sampleResume =
      .ok (Json.obj [("data", Json.obj
        (buildData [("candidateName", Json.str "A"), ("piiRemoved", Json.num 3)]))]) ∧
    (∃ n, jsonGet [("candidateName", Json.str "A"), ("piiRemoved", Json.num 3)]
        "piiRemoved" (Json.num 0) = Json.num n) := by
  have h := claim_C2_amended (genConst ("x".toList))
    (parseConst (Json.obj [("candidateName", Json.str "A"), ("piiRemoved", Json.num 3)]))
    (some "Bearer token") (some "org-1") sampleResume ("x".toList)
    [("candidateName", Json.str "A"), ("piiRemoved", Json.num 3)]
    rfl rfl (by decide) rfl (by decide) rfl
    (by intro v hv; refine ⟨"A", ?_⟩; simpa [List.lookup] using hv.symm)
    (by intro v hv; simp [List.lookup] at hv)
    (by intro v hv; refine ⟨3, ?_⟩; simpa [List.lookup] using hv.symm)
  exact ⟨⟨rfl, by decide⟩, h.1, h.2.2.2.2⟩

/-- C3: FALSE as stated — a present-but-wrong-typed `sections` or
`piiRemoved` value is not coerced; `dict.get` returns the upstream value
whenever the key is present, whatever its type.  Concrete input:
`{"sections": 5, "piiRemoved": "x"}`. -/
theorem claim_C3_counterexample :
    anonymize (genConst ("x".toList))
        (parseConst (Json.obj [("sections", Json.num 5), ("piiRemoved", Json.str "x")]))
        (some "Bearer token") (some "org-1") sampleResume =
      .ok (Json.obj [("data", Json.obj
        [("candidateName", Json.str ""),
         ("sections", Json.num 5),
         ("piiRemoved", Json.str "x"),
         ("id", Json.str "local-test-id"),
         ("processedBy", Json.str "gemini-local"),
         ("processingTime", Json.num 1200)])]) ∧
    Json.num 5 ≠ Json.arr [] ∧ Json.str "x" ≠ Json.num 0 :=
  ⟨rfl, fun h => Json.noConfusion h, fun h => Json.noConfusion h⟩

/-- C3 (amended): the defaults `[]` and `0` are used only when the key is
absent; when `sections` or `piiRemoved` is present, its upstream value is
propagated unchanged into the 200 response, whatever its type. -/
theorem claim_C3_amended (gen : List Char → Except String (Option (List Char)))
    (parse : List Char → Except String Json) (auth org : Option String)
    (rt text : List Char) (kvs : List (String × Json))
    (hauth : pyFalsyStrOpt auth = false) (horg : pyFalsyStrOpt org = false)
    (hlen : ¬ (rt = [] ∨ (pyStrip rt).length < 50))
    (hgen : gen (buildPrompt rt) = .ok (some text)) (htext : text ≠ [])
    (hparse : parse (stripCodeFences text) = .ok (Json.obj kvs)) :
    anonymize gen parse auth org rt =
      .ok (Json.obj [("data", Json.obj (buildData kvs))]) ∧
    (∀ v, kvs.lookup "sections" = some v →
      jsonGet kvs "sections" (Json.arr []) = v) ∧
    (∀ v, kvs.lookup "piiRemoved" = some v →
      jsonGet kvs "piiRemoved" (Json.num 0) = v) ∧
    (kvs.lookup "sections" = none → jsonGet kvs "sections" (Json.arr []) = Json.arr []) ∧
    (kvs.lookup "piiRemoved" = none → jsonGet kvs "piiRemoved" (Json.num 0) = Json.num 0) := by
  refine ⟨anonymize_ok_run hauth horg hlen hgen htext hparse, ?_, ?_, ?_, ?_⟩
  · exact fun v hv => jsonGet_of_lookup_some hv
  · exact fun v hv => jsonGet_of_lookup_some hv
  · exact fun h => jsonGet_of_lookup_none h
  · exact fun h => jsonGet_of_lookup_none h

/-- Closed instance of the amended C3 theorem: a wrong-typed `sections` value
is propagated as is. -/
theorem claim_C3_witness :
    (pyFalsyStrOpt (some "Bearer token") = false ∧
      ¬ (sampleResume = [] ∨ (pyStrip sampleResume).length < 50)) ∧
    anonymize (genConst ("x".toList)) (parseConst (Json.obj [("sections", Json.num 5)]))
        (some "Bearer token") (some "org-1") sampleResume =
      .ok (Json.obj [("data", Json.obj (buildData [("sections", Json.num 5)]))]) ∧
    jsonGet [("sections", Json.num 5)] "sections" (Json.arr []) = Json.num 5 := by
  have h := claim_C3_amended (genConst ("x".toList))
    (parseConst (Json.obj [("sections", Json.num 5)]))
    (some "Bearer token") (some "org-1") sampleResume ("x".toList)
    [("sections", Json.num 5)]
    rfl rfl (by decide) rfl (by decide) rfl
  exact ⟨⟨rfl, by decide⟩, h.1, h.2.1 (Json.num 5) (by simp [List.lookup])⟩

-- ---------------------------------------------------------------------------
-- Validation claims.
-- ---------------------------------------------------------------------------

/-- On a request that fails header or length validation, the handler's result
does not depend on the collaborators at all: the rejection happens before the
external call. -/
theorem anonymize_reject_indep
    (gen gen2 : List Char → Except String (Option (List Char)))
    (parse parse2 : List Char → Except String Json) (auth org : Option String)
    (rt : List Char)
    (hrej : pyFalsyStrOpt auth = true ∨ pyFalsyStrOpt org = true ∨
      rt = [] ∨ (pyStrip rt).length < 50) :
    anonymize gen parse auth org rt = anonymize gen2 parse2 auth org rt := by
  by_cases hauth : pyFalsyStrOpt auth = true
  · simp only [anonymize, hauth, if_true]
  · have hauth2 : pyFalsyStrOpt auth = false := by simpa using hauth
    by_cases horg : pyFalsyStrOpt org = true
    · simp only [anonymize, hauth2, Bool.false_eq_true, if_false, horg, if_true]
    · have horg2 : pyFalsyStrOpt org = false := by simpa using horg
      have hshort : rt = [] ∨ (pyStrip rt).length < 50 := by tauto
      simp only [anonymize, hauth2, horg2, Bool.false_eq_true, if_false,
        if_pos hshort]

/-- C5: FALSE as stated — a too-short request is rejected before the
collaborator is reached, but when the `Authorization` header is also missing
the status is 401, not 400.  Concrete input: empty `resumeText`, no
`Authorization` header. -/
theorem claim_C5_counterexample :
    anonymize (genConst ("x".toList)) (parseConst Json.null) none (some "org-1") [] =
      .httpError 401 "Missing Authorization header" ∧ (401 : Nat) ≠ 400 :=
  ⟨rfl, by decide⟩

/-- C5 (amended): provided the `Authorization` header is present and
non-empty, every request whose `resumeText` is empty or has trimmed length
< 50 is rejected with status 400, and the external collaborator is never
invoked (the result is the same for every collaborator pair). -/
theorem claim_C5_amended
    (gen gen2 : List Char → Except String (Option (List Char)))
    (parse parse2 : List Char → Except String Json) (auth org : Option String)
    (rt : List Char)
    (hauth : pyFalsyStrOpt auth = false)
    (hshort : rt = [] ∨ (pyStrip rt).length < 50) :
    (∃ d, anonymize gen parse auth org rt = .httpError 400 d) ∧
    anonymize gen parse auth org rt = anonymize gen2 parse2 auth org rt := by
  constructor
  · by_cases horg : pyFalsyStrOpt org = true
    · exact ⟨"Missing org-id header", by
        simp only [anonymize, hauth, Bool.false_eq_true, if_false, horg, if_true]⟩
    · have horg2 : pyFalsyStrOpt org = false := by simpa using horg
      exact ⟨"Invalid resumeText", by
        simp only [anonymize, hauth, horg2, Bool.false_eq_true, if_false,
          if_pos hshort]⟩
  · exact anonymize_reject_indep gen gen2 parse parse2 auth org rt (by tauto)

/-- Closed instance of the amended C5 theorem: a 10-character resume text is
rejected with 400 under present headers, for two different collaborator
pairs. -/
theorem claim_C5_witness :
    (pyFalsyStrOpt (some "Bearer token") = false ∧
      (("short text".toList : List Char) = [] ∨
        (pyStrip ("short text".toList)).length < 50)) ∧
    (∃ d, anonymize (genConst ("x".toList)) (parseConst Json.null)
        (some "Bearer token") (some "org-1") ("short text".toList) =
      .httpError 400 d) ∧
    anonymize (genConst ("x".toList)) (parseConst Json.null)
        (some "Bearer token") (some "org-1") ("short text".toList) =
      anonymize (genConst ("y".toList)) (parseFail "boom")
        (some "Bearer token") (some "org-1") ("short text".toList) :=
  ⟨⟨rfl, by decide⟩,
    claim_C5_amended (genConst ("x".toList)) (genConst ("y".toList))
      (parseConst Json.null) (parseFail "boom")
      (some "Bearer token") (some "org-1") ("short text".toList)
      rfl (by decide)⟩

/-- C6: FALSE as stated — a missing `org-id` header is rejected with 400, but
a missing `Authorization` header is rejected with 401, not 400.  Concrete
input: valid 60-character resume text, no `Authorization` header, `org-id`
present. -/
theorem claim_C6_counterexample :
    anonymize (genConst ("x".toList)) (parseConst Json.null) none (some "org-1")
        sampleResume =
      .httpError 401 "Missing Authorization header" ∧ (401 : Nat) ≠ 400 :=
  ⟨rfl, by decide⟩

/-- C6 (amended): when either header is missing (or empty), the request is
rejected before the collaborator is invoked, even for a valid resume text:
with 401 `Missing Authorization header` when `Authorization` is missing, and
with 400 `Missing org-id header` when `Authorization` is present but `org-id`
is missing. -/
theorem claim_C6_amended
    (gen gen2 : List Char → Except String (Option (List Char)))
    (parse parse2 : List Char → Except String Json) (auth org : Option String)
    (rt : List Char)
    (hmiss : pyFalsyStrOpt auth = true ∨ pyFalsyStrOpt org = true) :
    anonymize gen parse auth org rt = anonymize gen2 parse2 auth org rt ∧
    (pyFalsyStrOpt auth = true →
      anonymize gen parse auth org rt = .httpError 401 "Missing Authorization header") ∧
    (pyFalsyStrOpt auth = false → pyFalsyStrOpt org = true →
      anonymize gen parse auth org rt = .httpError 400 "Missing org-id header") := by
  refine ⟨anonymize_reject_indep gen gen2 parse parse2 auth org rt (by tauto), ?_, ?_⟩
  · intro hauth
    simp only [anonymize, hauth, if_true]
  · intro hauth horg
    simp only [anonymize, hauth, Bool.false_eq_true, if_false, horg, if_true]

/-- Closed instance of the amended C6 theorem: missing `org-id` with a valid
60-character resume text yields 400, identically for two collaborator
pairs. -/
theorem claim_C6_witness :
    (pyFalsyStrOpt (none : Option String) = true ∨ pyFalsyStrOpt none = true) ∧
    anonymize (genConst ("x".toList)) (parseConst Json.null) (some "Bearer token") none
        sampleResume =
      anonymize (genConst ("y".toList)) (parseFail "boom") (some "Bearer token") none
        sampleResume ∧
    anonymize (genConst ("x".toList)) (parseConst Json.null) (some "Bearer token") none
        sampleResume = .httpError 400 "Missing org-id header" := by
  have h := claim_C6_amended (genConst ("x".toList)) (genConst ("y".toList))
    (parseConst Json.null) (parseFail "boom") (some "Bearer token") none sampleResume
    (Or.inr rfl)
  exact ⟨Or.inl rfl, h.1, h.2.2 rfl rfl⟩

/-- C7: when the upstream response text is not valid JSON after
fence-stripping, the request fails with a 500 error whose detail carries the
parse failure message; it never returns a 200 body. -/
theorem claim_C7 (gen : List Char → Except String (Option (List Char)))
    (parse : List Char → Except String Json) (auth org : Option String)
    (rt text : List Char) (e : String)
    (hauth : pyFalsyStrOpt auth = false) (horg : pyFalsyStrOpt org = false)
    (hlen : ¬ (rt = [] ∨ (pyStrip rt).length < 50))
    (hgen : gen (buildPrompt rt) = .ok (some text)) (htext : text ≠ [])
    (hparse : parse (stripCodeFences text) = .error e) :
    anonymize gen parse auth org rt = .httpError 500 (FAILED_PREFIX ++ e) ∧
    ∀ b, anonymize gen parse auth org rt ≠ .ok b := by
  have htext2 : text.isEmpty = false := by
    cases text with
    | nil => exact absurd rfl htext
    | cons c t => rfl
  have hrun : anonymize gen parse auth org rt = .httpError 500 (FAILED_PREFIX ++ e) := by
    simp only [anonymize, hauth, horg, Bool.false_eq_true, if_false, if_neg hlen,
      hgen, Option.getD_some, htext2, normalizeUpstream, hparse]
  refine ⟨hrun, fun b hb => ?_⟩
  rw [hrun] at hb
  exact HttpResult.noConfusion hb

/-- Closed instance of C7: the collaborator answers `"not json"` and the
parser fails with the CPython message for it; the request yields 500. -/
theorem claim_C7_witness :
    (pyFalsyStrOpt (some "Bearer token") = false ∧
      ¬ (sampleResume = [] ∨ (pyStrip sampleResume).length < 50) ∧
      parseFail "Expecting value: line 1 column 1 (char 0)"
        (stripCodeFences ("not json".toList)) =
        .error "Expecting value: line 1 column 1 (char 0)") ∧
    anonymize (genConst ("not json".toList))
        (parseFail "Expecting value: line 1 column 1 (char 0)")
        (some "Bearer token") (some "org-1") sampleResume =
      .httpError 500 (FAILED_PREFIX ++ "Expecting value: line 1 column 1 (char 0)") :=
  ⟨⟨rfl, by decide, rfl⟩,
    (claim_C7 (genConst ("not json".toList))
      (parseFail "Expecting value: line 1 column 1 (char 0)")
      (some "Bearer token") (some "org-1") sampleResume ("not json".toList)
      "Expecting value: line 1 column 1 (char 0)"
      rfl rfl (by decide) rfl (by decide) rfl).1⟩

/-- C10: every successful response is an object with the single top-level key
`data` whose value has exactly the six keys `candidateName`, `sections`,
`piiRemoved`, `id`, `processedBy`, `processingTime`, the last three being the
fixed constants `"local-test-id"`, `"gemini-local"`, `1200`; upstream keys
other than the three expected ones never reach the response. -/
theorem claim_C10 (gen : List Char → Except String (Option (List Char)))
    (parse : List Char → Except String Json) (auth org : Option String)
    (rt : List Char) (body : Json)
    (h : anonymize gen parse auth org rt = .ok body) :
    ∃ cn sec pii, body = Json.obj [("data", Json.obj
      [("candidateName", cn), ("sections", sec), ("piiRemoved", pii),
       ("id", Json.str "local-test-id"), ("processedBy", Json.str "gemini-local"),
       ("processingTime", Json.num 1200)])] := by
  rw [anonymize] at h
  split at h
  · exact absurd h (fun hc => HttpResult.noConfusion hc)
  · split at h
    · exact absurd h (fun hc => HttpResult.noConfusion hc)
    · split at h
      · exact absurd h (fun hc => HttpResult.noConfusion hc)
      · -- discharge the two `let` binders definitionally
        have h2 : (match gen (buildPrompt rt) with
          | Except.error e => HttpResult.httpError 500 (FAILED_PREFIX ++ e)
          | Except.ok textOpt =>
            if (textOpt.getD []).isEmpty = true then
              HttpResult.httpError 500 (FAILED_PREFIX ++ "No response text from Gemini")
            else
              match normalizeUpstream parse (textOpt.getD []) with
              | Except.ok b => HttpResult.ok b
              | Except.error e => HttpResult.httpError 500 (FAILED_PREFIX ++ e)) =
            HttpResult.ok body := h
        clear h
        split at h2
        · exact absurd h2 (fun hc => HttpResult.noConfusion hc)
        · split at h2
          · exact absurd h2 (fun hc => HttpResult.noConfusion hc)
          · split at h2
            · rename_i b hnorm
              -- successful normalization: recover the shape from
              -- `normalizeUpstream`.
              rw [normalizeUpstream] at hnorm
              split at hnorm
              · exact absurd hnorm (fun hc => Except.noConfusion hc)
              · rename_i kvs hkvs
                have hb : b = Json.obj [("data", Json.obj (buildData kvs))] := by
                  cases hnorm
                  rfl
                have hbody : body = b := by
                  cases h2
                  rfl
                refine ⟨jsonGet kvs "candidateName" (Json.str ""),
                  jsonGet kvs "sections" (Json.arr []),
                  jsonGet kvs "piiRemoved" (Json.num 0), ?_⟩
                rw [hbody, hb]
                rfl
              · exact absurd hnorm (fun hc => Except.noConfusion hc)
            · exact absurd h2 (fun hc => HttpResult.noConfusion hc)

/-- Closed instance of C10: a successful run whose upstream object carries an
extra key `secret`; the response drops it and carries the six keys with the
constant synthetic fields. -/
theorem claim_C10_witness :
    ∃ cn sec pii,
      Json.obj [("data", Json.obj
        (buildData [("secret", Json.str "s"), ("piiRemoved", Json.num 7)]))] =
      Json.obj [("data", Json.obj
        [("candidateName", cn), ("sections", sec), ("piiRemoved", pii),
         ("id", Json.str "local-test-id"), ("processedBy", Json.str "gemini-local"),
         ("processingTime", Json.num 1200)])] :=
  claim_C10 (genConst ("x".toList))
    (parseConst (Json.obj [("secret", Json.str "s"), ("piiRemoved", Json.num 7)]))
    (some "Bearer token") (some "org-1") sampleResume
    (Json.obj [("data", Json.obj
      (buildData [("secret", Json.str "s"), ("piiRemoved", Json.num 7)]))])
    rfl

-- ---------------------------------------------------------------------------
-- Round-trip (C8).
-- ---------------------------------------------------------------------------

/-- Fence-stripping is the identity on a text that starts and ends with a
non-whitespace, non-backquote character. -/
theorem stripCodeFences_closed {c c' : Char} {m : List Char}
    (hc : isPySpace c = false) (hcb : c ≠ Char.ofNat 96)
    (hc' : isPySpace c' = false) (hcb' : c' ≠ Char.ofNat 96) :
    stripCodeFences (c :: (m ++ [c'])) = c :: (m ++ [c']) := by
  have hrev : (c :: (m ++ [c'])).reverse = c' :: (m.reverse ++ [c]) := by
    simp
  have hstrip : pyStrip (c :: (m ++ [c'])) = c :: (m ++ [c']) := by
    rw [pyStrip, dropWs_cons_of_not hc, hrev, dropWs_cons_of_not hc', ← hrev,
      List.reverse_reverse]
  have hnopre : ¬ fence <+: (c :: (m ++ [c'])) := by
    intro hcon
    obtain ⟨z, hz⟩ := hcon
    rw [fence_eq] at hz
    have hh := congrArg List.head? hz
    simp at hh
    exact hcb hh.symm
  have hnosuf : ¬ fence <+: (c :: (m ++ [c'])).reverse := by
    intro hcon
    obtain ⟨z, hz⟩ := hcon
    rw [fence_eq, hrev] at hz
    have := congrArg List.head? hz
    simp at this
    exact hcb' this.symm
  have hnonl : ¬ ('\n' :: fence) <+: (c :: (m ++ [c'])).reverse := by
    intro hcon
    obtain ⟨z, hz⟩ := hcon
    rw [hrev] at hz
    have := congrArg List.head? hz
    simp at this
    rw [← this] at hc'
    exact Bool.noConfusion ((by decide : isPySpace '\n' = true) ▸ hc')
  rw [stripCodeFences, hstrip, subLeadingFence_of_not hnopre,
    subTrailingFence_of_not hnosuf hnonl, hstrip]

/-- The serialization of a JSON object starts with `{` and ends with `}`. -/
theorem stripCodeFences_serialized_obj (kvs : List (String × Json)) :
    stripCodeFences (serializeJson (Json.obj kvs)) = serializeJson (Json.obj kvs) := by
  have hshape : serializeJson (Json.obj kvs) =
      Char.ofNat 123 :: (serializeObj kvs ++ [Char.ofNat 125]) := by
    simp [serializeJson]
  rw [hshape]
  exact stripCodeFences_closed (by decide) (by decide) (by decide) (by decide)

/-- C8: serializing a well-formed NormalizedResult and feeding the text back
through the pipeline (fence-stripping, JSON parsing, key defaulting) returns
the three fields unchanged.  `parse` stands for the external `json.loads`,
assumed to invert serialization on this value. -/
theorem claim_C8 (parse : List Char → Except String Json)
    (cn : String) (secs : List Json) (pii : Int)
    (hparse : parse (serializeJson (mkResult cn secs pii)) = .ok (mkResult cn secs pii)) :
    normalizeUpstream parse (serializeJson (mkResult cn secs pii)) =
      .ok (Json.obj [("data", Json.obj
        [("candidateName", Json.str cn), ("sections", Json.arr secs),
         ("piiRemoved", Json.num pii), ("id", Json.str "local-test-id"),
         ("processedBy", Json.str "gemini-local"),
         ("processingTime", Json.num 1200)])]) := by
  have hstrip : stripCodeFences (serializeJson (mkResult cn secs pii)) =
      serializeJson (mkResult cn secs pii) :=
    stripCodeFences_serialized_obj _
  rw [normalizeUpstream, hstrip, hparse]
  rfl

/-- Closed instance of C8 at the empty NormalizedResult. -/
theorem claim_C8_witness :
    parseConst (mkResult "" [] 0) (serializeJson (mkResult "" [] 0)) =
      .ok (mkResult "" [] 0) ∧
    normalizeUpstream (parseConst (mkResult "" [] 0)) (serializeJson (mkResult "" [] 0)) =
      .ok (Json.obj [("data", Json.obj
        [("candidateName", Json.str ""), ("sections", Json.arr []),
         ("piiRemoved", Json.num 0), ("id", Json.str "local-test-id"),
         ("processedBy", Json.str "gemini-local"),
         ("processingTime", Json.num 1200)])]) :=
  ⟨rfl, claim_C8 (parseConst (mkResult "" [] 0)) "" [] 0 rfl⟩

-- ---------------------------------------------------------------------------
-- Prompt building (C9).
-- ---------------------------------------------------------------------------

theorem noOccStartingIn_append (old a b c : List Char) :
    noOccStartingIn old (a ++ b) c =
      (noOccStartingIn old a (b ++ c) && noOccStartingIn old b c) := by
  induction a with
  | nil => simp [noOccStartingIn]
  | cons x t ih =>
    simp only [List.cons_append, noOccStartingIn, List.append_eq,
      List.append_assoc, ih, Bool.and_assoc]

theorem noOccChunks_eq (old : List Char) (L : List (List Char)) (b : List Char) :
    noOccChunks old L b = noOccStartingIn old (catChunks L) b := by
  induction L with
  | nil => simp [noOccChunks, catChunks, noOccStartingIn]
  | cons a t ih =>
    simp only [noOccChunks, catChunks, noOccStartingIn_append, ih]

/-- The placeholder does not occur anywhere strictly inside the prefix part
of the template (checked chunk by chunk by the kernel). -/
theorem tpl_noOcc :
    noOccChunks placeholder tplChunkList (placeholder ++ ['\n']) = true := by
  decide

theorem pyReplace_cons_no {old new : List Char} {x : Char} {t : List Char}
    (h : old.isPrefixOf (x :: t) = false) :
    pyReplace old new (x :: t) = x :: pyReplace old new t := by
  rw [pyReplace]
  rw [dif_neg]
  intro hcon
  exact Bool.noConfusion (h ▸ hcon.1)

theorem pyReplace_skip {old new : List Char} :
    ∀ {a b : List Char}, noOccStartingIn old a b = true →
      pyReplace old new (a ++ b) = a ++ pyReplace old new b := by
  intro a
  induction a with
  | nil => intro b _; rfl
  | cons x t ih =>
    intro b h
    rw [noOccStartingIn, Bool.and_eq_true, Bool.not_eq_true'] at h
    rw [List.cons_append, pyReplace_cons_no (by simpa using h.1), ih h.2,
      List.cons_append]

theorem pyReplace_head {old new b : List Char} (h : old ≠ []) :
    pyReplace old new (old ++ b) = new ++ pyReplace old new b := by
  obtain ⟨o0, ot, rfl⟩ : ∃ o0 ot, old = o0 :: ot := by
    cases old with
    | nil => exact absurd rfl h
    | cons o0 ot => exact ⟨o0, ot, rfl⟩
  rw [List.cons_append, pyReplace, dif_pos]
  · have hdrop : ((o0 :: (ot ++ b)).drop (o0 :: ot).length) = b := by
      rw [← List.cons_append, List.drop_left]
    rw [hdrop]
  · constructor
    · rw [← List.cons_append]
      simp [List.isPrefixOf_iff_prefix]
    · exact h

/-- C9: for every resume text, the prompt is exactly the constant template
with the single `{RESUME_TEXT}` placeholder replaced by the text: the text
appears verbatim between the constant prefix and the constant final newline,
with no escaping, sanitization or truncation. -/
theorem claim_C9 (resumeText : List Char) :
    PROMPT_TEMPLATE = tplPre ++ (placeholder ++ ['\n']) ∧
    buildPrompt resumeText = tplPre ++ (resumeText ++ ['\n']) ∧
    ∃ u v, buildPrompt resumeText = u ++ resumeText ++ v := by
  have htpl : PROMPT_TEMPLATE = tplPre ++ (placeholder ++ ['\n']) := by
    rw [PROMPT_TEMPLATE, List.append_assoc]
  have hnoocc : noOccStartingIn placeholder tplPre (placeholder ++ ['\n']) = true := by
    rw [tplPre, ← noOccChunks_eq]
    exact tpl_noOcc
  have hph : placeholder ≠ [] := by decide
  have hnl : pyReplace placeholder resumeText ['\n'] = ['\n'] := by
    rw [pyReplace_cons_no (by decide)]
    simp [pyReplace]
  have hmain : buildPrompt resumeText = tplPre ++ (resumeText ++ ['\n']) := by
    rw [buildPrompt, htpl, pyReplace_skip hnoocc, pyReplace_head hph, hnl]
  refine ⟨htpl, hmain, tplPre, ['\n'], ?_⟩
  rw [hmain, List.append_assoc]

end ResumeAnonymizer

